import Mathlib

/-!
Verification of the obsidian-dynamic-templates plugin.

Shallow embedding of the core of the plugin:
* `src/Template.ts` — metadata/parameter validation (`validateMetadata`,
  `validateParams`) and the manual creation chain (`createManualTemplate`);
* `src/modals.ts` — the retry loop `promptWithRetry`;
* `src/main.ts` (dynamic-templates variant) — the protocol dispatcher
  `handleUrlParams`, the discovery scan of the scripts directory, and the
  export lookup of `runTemplateURLWithInjection`;
* `src/Scripts/Wishlist.js` — the wishlist template.

JavaScript dynamic values are embedded as `JsValue`; objects are embedded as
association lists keyed by strings (first occurrence wins, matching a map with
unique keys).  Interactive steps and the file system are oracles supplied as
arguments; user-visible effects are recorded as explicit event lists.
-/

/-! String primitives re-implemented by structural recursion on the
character list, so that every definition evaluates inside the kernel. -/

/-- `pat` is a prefix of `s` (character lists). -/
def isPrefixL : List Char → List Char → Bool
  | [], _ => true
  | _ :: _, [] => false
  | p :: ps, c :: cs => p == c && isPrefixL ps cs

/-- `s` contains `sub` as a contiguous run (character lists). -/
def containsL (s sub : List Char) : Bool :=
  match s with
  | [] => sub.isEmpty
  | _ :: t => isPrefixL sub s || containsL t sub

/-- Drop leading whitespace. -/
def dropWhileWs : List Char → List Char
  | [] => []
  | c :: t => if c.isWhitespace then dropWhileWs t else c :: t

/-- `String.prototype.trim`: strip whitespace from both ends. -/
def jsTrim (s : String) : String :=
  ⟨(dropWhileWs (dropWhileWs s.data.reverse).reverse)⟩

/-- Replace every occurrence of `pat` by `repl`, scanning left to right
(the semantics of `String.prototype.replace` with a global regexp made of
literal characters).  `fuel` is the length of the subject. -/
def replaceAllAux : Nat → List Char → List Char → List Char → List Char
  | 0, s, _, _ => s
  | fuel + 1, s, pat, repl =>
    match s with
    | [] => []
    | c :: t =>
      if isPrefixL pat s then
        repl ++ replaceAllAux fuel (s.drop pat.length) pat repl
      else
        c :: replaceAllAux fuel t pat repl

/-- `s.replace(/pat/g, repl)` for a non-empty literal pattern. -/
def jsReplaceAll (s pat repl : String) : String :=
  ⟨replaceAllAux s.data.length s.data pat.data repl.data⟩

/-- `s.replace(pat, repl)`: string patterns replace only the first
occurrence (used by the scan for `file.replace(".js", "")`). -/
def jsReplaceFirstAux : List Char → List Char → List Char → List Char
  | [], _, _ => []
  | c :: t, pat, repl =>
    if isPrefixL pat (c :: t) then repl ++ (c :: t).drop pat.length
    else c :: jsReplaceFirstAux t pat repl

def jsReplaceFirst (s pat repl : String) : String :=
  ⟨jsReplaceFirstAux s.data pat.data repl.data⟩

/-- `s.endsWith(suffix)`. -/
def jsEndsWith (s suffix : String) : Bool :=
  isPrefixL suffix.data.reverse s.data.reverse

/-- `s.charAt(0).toUpperCase() + s.slice(1)`. -/
def capitalizeFirst (s : String) : String :=
  match s.data with
  | [] => ""
  | c :: t => ⟨c.toUpper :: t⟩

/-- A JavaScript runtime value as far as the plugin inspects one:
strings, numbers, booleans, `null`, `undefined`, and arrays.
Numbers are restricted to the integers the claims exercise. -/
inductive JsValue where
  | str (s : String)
  | num (n : Int)
  | bool (b : Bool)
  | null
  | undefined
  | arr (elems : List JsValue)

/-- JavaScript truthiness of a value (`if (v)`), per the ECMAScript
ToBoolean rules: empty string, `0`, `false`, `null` and `undefined`
are falsy; arrays are objects and always truthy. -/
def JsValue.truthy : JsValue → Bool
  | .str s => !(s == "")
  | .num n => !(n == 0)
  | .bool b => b
  | .null => false
  | .undefined => false
  | .arr _ => true

/-- `typeof v === "string"`. -/
def JsValue.isStr : JsValue → Bool
  | .str _ => true
  | _ => false

/-- JavaScript strict equality on primitives (`===`, also the SameValueZero
test used by `Array.prototype.includes`).  Two arrays compare by reference;
distinct array literals are never equal, which the embedding renders as
`false`. -/
def JsValue.primEq : JsValue → JsValue → Bool
  | .str a, .str b => a == b
  | .num a, .num b => a == b
  | .bool a, .bool b => a == b
  | .null, .null => true
  | .undefined, .undefined => true
  | _, _ => false

/-- JavaScript string coercion (template literals, property keys). -/
def JsValue.toStr : JsValue → String
  | .str s => s
  | .num n => toString n
  | .bool b => if b then "true" else "false"
  | .null => "null"
  | .undefined => "undefined"
  | .arr _ => ""

/-- A JavaScript object embedded as an association list (first binding of a
key wins; the plugin only builds objects with distinct keys). -/
abbrev JsObj := List (String × JsValue)

/-- Property read on an object: a missing key yields `undefined`. -/
def JsObj.get (o : JsObj) (k : String) : JsValue :=
  (o.lookup k).getD .undefined

/-- The value `this.getMetadata()` hands back: either an object or some other
(malformed) value. -/
inductive MdVal where
  | obj (fields : JsObj)
  | prim (v : JsValue)

/-- Property access `m.k` on a metadata value.  Reading a property of `null`
or `undefined` throws a `TypeError`; on any other non-object primitive the
read yields `undefined`. -/
def MdVal.getE (m : MdVal) (k : String) : Except String JsValue :=
  match m with
  | .obj fs => .ok (fs.get k)
  | .prim .null => .error "TypeError: cannot read properties of null"
  | .prim .undefined => .error "TypeError: cannot read properties of undefined"
  | .prim _ => .ok .undefined

/-- Total property read on a metadata value, used on the specification side
of the validator characterisations (`undefined` where the code would throw). -/
def MdVal.field (m : MdVal) (k : String) : JsValue :=
  match m with
  | .obj fs => fs.get k
  | .prim _ => .undefined

/-- A template as `Template.validateMetadata` / `validateParams` see it:
just the behaviour of its `getMetadata` method, which may throw or return a
malformed value. -/
structure TemplateModel where
  getMetadata : Except String MdVal

/-- Body of `Template.validateMetadata` (src/Template.ts:111-139) before its
`catch`: the sequence of throwing checks on `this.getMetadata()`. -/
def validateMetadataBody (t : TemplateModel) : Except String Bool := do
  let md ← t.getMetadata
  let name ← md.getE "name"
  if !name.truthy || !name.isStr then
    throw "Template metadata must have a valid name"
  else
  let rf ← md.getE "requiredFields"
  match rf with
  | .arr elems =>
    if elems.length == 0 then
      throw "Template must specify at least one required field"
    else
      let missing := ["title", "url", "type"].filter
        (fun f => !(elems.any (fun e => e.primEq (.str f))))
      if missing.isEmpty then pure true
      else throw ("Template must include basic required fields: " ++
        String.intercalate ", " missing)
  | _ => throw "Template metadata must specify requiredFields as an array"

/-- The `try`/`catch` wrapper of `validateMetadata`: a thrown error is
handed to `handleError` and the method returns `false`. -/
def jsTryCatchFalse (body : Except String Bool) : Except String Bool :=
  match body with
  | .ok b => .ok b
  | .error _ => .ok false

/-- `Template.validateMetadata` as the caller observes it: an `Except`
computation whose errors are exactly the exceptions that escape the method. -/
def validateMetadataJs (t : TemplateModel) : Except String Bool :=
  jsTryCatchFalse (validateMetadataBody t)

/-- The boolean result of `Template.validateMetadata`. -/
def validateMetadataB (t : TemplateModel) : Bool :=
  match validateMetadataJs t with
  | .ok b => b
  | .error _ => false

/-- `validateMetadata` applied to a template whose `getMetadata` returns
the descriptor `md`. -/
def validateMetadataOn (md : MdVal) : Bool :=
  validateMetadataB ⟨.ok md⟩

/-- A required-field value is a blank string: `typeof v === "string" &&
v.trim() === ""`. -/
def JsValue.isBlankStr : JsValue → Bool
  | .str s => jsTrim s == ""
  | _ => false

/-- The `for (const field of metadata.requiredFields)` loop of
`validateParams`: throws on the first field whose value is falsy or a
blank string. -/
def checkRequiredFields (fields : List JsValue) (params : JsObj) :
    Except String Unit :=
  match fields with
  | [] => .ok ()
  | f :: rest =>
    let v := params.get f.toStr
    if !v.truthy || v.isBlankStr then
      .error ("Missing required field: " ++ f.toStr)
    else
      checkRequiredFields rest params

/-- `v.length > 0` as JavaScript evaluates it on the values the gate
`metadata.supportedTypes && ...` lets through: arrays and strings report
their length, numbers and booleans have no `length` property and the
comparison with `undefined` is `false`. -/
def jsLengthPos (v : JsValue) : Except String Bool :=
  match v with
  | .arr xs => .ok (decide (xs.length > 0))
  | .str s => .ok (decide (s.length > 0))
  | .num _ => .ok false
  | .bool _ => .ok false
  | .null => .error "TypeError: cannot read properties of null"
  | .undefined => .error "TypeError: cannot read properties of undefined"

/-- Substring test backing `String.prototype.includes`. -/
def strContains (s sub : String) : Bool :=
  containsL s.data sub.data

/-- `v.includes(x)`: membership by strict equality for arrays, substring
test for strings, a `TypeError` elsewhere. -/
def jsIncludes (v x : JsValue) : Except String Bool :=
  match v with
  | .arr xs => .ok (xs.any (fun e => e.primEq x))
  | .str s => .ok (strContains s x.toStr)
  | _ => .error "TypeError: includes is not a function"

/-- `v.join(", ")` for the unsupported-type message. -/
def jsJoinE (v : JsValue) : Except String String :=
  match v with
  | .arr xs => .ok (String.intercalate ", " (xs.map JsValue.toStr))
  | _ => .error "TypeError: join is not a function"

/-- Body of `Template.validateParams` (src/Template.ts:144-167) before its
`catch`. -/
def validateParamsBody (t : TemplateModel) (params : JsObj) :
    Except String Bool := do
  let md ← t.getMetadata
  let rf ← md.getE "requiredFields"
  let fields ← (match rf with
    | .arr es => .ok es
    | .str s => .ok (s.data.map (fun c => JsValue.str (String.singleton c)))
    | _ => .error "TypeError: metadata.requiredFields is not iterable")
  checkRequiredFields fields params
  let st ← md.getE "supportedTypes"
  if !st.truthy then
    pure true
  else do
    let lenPos ← jsLengthPos st
    if !lenPos then
      pure true
    else do
      let ty := params.get "type"
      let mem ← jsIncludes st ty
      if mem then
        pure true
      else do
        let joined ← jsJoinE st
        throw ("Unsupported type " ++ ty.toStr ++ ". Supported types: " ++
          joined)

/-- `Template.validateParams` as the caller observes it. -/
def validateParamsJs (t : TemplateModel) (params : JsObj) :
    Except String Bool :=
  jsTryCatchFalse (validateParamsBody t params)

/-- The boolean result of `Template.validateParams`. -/
def validateParamsB (t : TemplateModel) (params : JsObj) : Bool :=
  match validateParamsJs t params with
  | .ok b => b
  | .error _ => false

/-- A well-typed descriptor as the spec describes one, used to state the
parameter-validation characterisation. -/
structure WMeta where
  name : String
  requiredFields : List String
  supportedTypes : Option (List String)

/-- Embedding of a well-typed descriptor into the dynamic metadata values. -/
def WMeta.toMdVal (m : WMeta) : MdVal :=
  .obj ([("name", .str m.name),
         ("requiredFields", .arr (m.requiredFields.map .str))] ++
    (match m.supportedTypes with
     | none => []
     | some ts => [("supportedTypes", .arr (ts.map .str))]))

/-- `validateParams` run against a well-typed descriptor. -/
def validateParamsOn (m : WMeta) (params : JsObj) : Bool :=
  validateParamsB ⟨.ok m.toMdVal⟩ params





/-! The prompt layer: `promptWithRetry` (src/modals.ts:630-653) and the
modal-level events it produces.  One invocation of the prompt function
either resolves with a value or rejects with a thrown error, which is an
`InputError` or not; the behaviour of the user across successive
invocations is an oracle indexed by the attempt number. -/

/-- The settled result of one invocation of a prompt function. -/
inductive PromptOutcome where
  | resolved (v : JsValue)
  | rejected (isInputError : Bool) (msg : String)

/-- Modal-layer events: the notices issued by `promptWithRetry` and
`handleError`, and markers for the chain steps of `createManualTemplate`. -/
inductive MEv where
  | retried (msg : String)
  | errorShown (ctx msg : String)
  | step (name : String)
deriving DecidableEq

/-- `v === null || v === undefined`. -/
def JsValue.isNullish : JsValue → Bool
  | .null => true
  | .undefined => true
  | _ => false

/-- `promptWithRetry`: calls `promptFn promptArgs` repeatedly.  A nullish
resolution returns `null` (cancellation); any other resolution is returned;
a thrown `InputError` shows a notice and loops; any other thrown error is
handed to `handleError` and `null` is returned.  The `while (true)` loop is
run on `fuel` iterations; a `none` result means the loop was still running
when the fuel ran out.  `i` numbers the invocation so that the user oracle
can answer differently on each attempt; the code passes `promptArgs` to
every attempt unchanged, which the recursion makes explicit. -/
def promptWithRetryEv {α : Type} (fuel : Nat) (promptFn : α → Nat → PromptOutcome)
    (promptArgs : α) (context : String) (i : Nat) :
    Option JsValue × List MEv :=
  match fuel with
  | 0 => (none, [])
  | fuel + 1 =>
    match promptFn promptArgs i with
    | .resolved v => (some (if v.isNullish then .null else v), [])
    | .rejected true msg =>
      let (r, evs) := promptWithRetryEv fuel promptFn promptArgs context (i + 1)
      (r, .retried ("Invalid input, please amend and try again.\n" ++ msg) :: evs)
    | .rejected false msg => (some .null, [.errorShown context msg])

/-- How one settled outcome of the prompt function is delivered to the
caller of `promptWithRetry`: values pass through, nullish resolutions and
non-retryable errors become `null`. -/
def settleOutcome : PromptOutcome → JsValue
  | .resolved v => if v.isNullish then .null else v
  | .rejected _ _ => .null

/-- Whether an outcome is a retryable-input failure (`error instanceof
InputError`). -/
def PromptOutcome.isRetryable : PromptOutcome → Bool
  | .rejected true _ => true
  | _ => false

/-- The validator wrapped around the title prompt of
`Template.createManualTemplate` (src/Template.ts:71-79): a falsy or blank
value makes it throw a plain `Error` (not an `InputError`). -/
def manualTitleValidator (o : PromptOutcome) : PromptOutcome :=
  match o with
  | .resolved v =>
    if !v.truthy || v.isBlankStr then .rejected false "Title cannot be empty"
    else .resolved v
  | r => r

/-- Object spread `{ ...base, ...extra }`: keys of `extra` override keys of
`base`, insertion order otherwise kept. -/
def objSpread (base extra : JsObj) : JsObj :=
  base.filter (fun kv => !(extra.any (fun kv2 => kv2.1 == kv.1))) ++ extra

/-- The oracles of one run of `Template.createManualTemplate`: the user's
answers to the URL and title modals per attempt, the result of the
template's own `promptForFields` chain (`none` embeds `null`), and the
behaviour of `createTemplatedFile` on the merged parameters (`error` embeds
a thrown exception). -/
structure ManualOracles where
  urlModal : Nat → PromptOutcome
  titleModal : Nat → PromptOutcome
  promptForFields : Option JsObj
  createFile : JsObj → Except String Bool

/-- `Template.createManualTemplate` (src/Template.ts:59-99).  Returns the
boolean result (`none` when the retry loop ran out of fuel) and the events
of the run; a `step` event marks each stage that was started. -/
def createManualTemplate (fuel : Nat) (o : ManualOracles) (selectedType : String) :
    Option Bool × List MEv :=
  let ctx := "Template.createManualTemplate"
  let (urlRes, e1) := promptWithRetryEv fuel (fun _ k => o.urlModal k) () ctx 0
  let evs1 := MEv.step "url" :: e1
  match urlRes with
  | none => (none, evs1)
  | some url =>
    if !url.truthy then (some false, evs1)
    else
      let (tRes, e2) :=
        promptWithRetryEv fuel (fun _ k => manualTitleValidator (o.titleModal k)) () ctx 0
      let evs2 := evs1 ++ MEv.step "title" :: e2
      match tRes with
      | none => (none, evs2)
      | some title =>
        if !title.truthy then (some false, evs2)
        else
          let evs3 := evs2 ++ [MEv.step "fields"]
          match o.promptForFields with
          | none => (some false, evs3)
          | some userInputs =>
            let params := objSpread
              [("title", title), ("url", url), ("type", .str selectedType)]
              userInputs
            let evs4 := evs3 ++ [MEv.step "createFile"]
            match o.createFile params with
            | .ok b => (some b, evs4)
            | .error msg => (some false, evs4 ++ [MEv.errorShown ctx msg])


/-! The protocol dispatcher (src/main.ts:441-481, dynamic-templates
variant), the discovery scan (src/main.ts:559-582 and 363-387), the export
lookup of `runTemplateURLWithInjection` (src/main.ts:772-785), and the
wishlist template (src/Scripts/Wishlist.js). -/

/-- A value of the inbound parameter bag: a single string or a repeated
(multi-valued) entry. -/
inductive UrlVal where
  | single (s : String)
  | multi (xs : List String)
deriving DecidableEq

/-- The inbound parameter bag of a protocol invocation. -/
abbrev UrlBag := List (String × UrlVal)

/-- `Array.isArray(params.k) ? params.k[0] : params.k` — the normalization
of one entry; `none` embeds `undefined` (missing key, or the first element
of an empty array). -/
def normalizeParam (params : UrlBag) (k : String) : Option String :=
  match params.lookup k with
  | none => none
  | some (.single s) => some s
  | some (.multi xs) => xs.head?

/-- Truthiness of a normalized entry (`undefined` and `""` are falsy). -/
def optTruthy : Option String → Bool
  | none => false
  | some s => !(s == "")

/-- Dispatcher-level events: the notices shown to the user, the validation
calls with their arguments and results, the start of a field-collection
chain, and a write of the materializer. -/
inductive Ev where
  | notice (msg : String)
  | metaValidated (result : Bool)
  | paramsValidated (args : List (String × String)) (result : Bool)
  | collected (prefilledTitle : String)
  | wrote (folder name content : String)
  | errorShown (ctx msg : String)
deriving DecidableEq

/-- A loaded template instance as the dispatcher uses one.  The two
validators are `Option`s because the dispatcher guards each call with an
existence test (`templateInstance.validateMetadata && ...`);
`createTemplatedFile` returns its events and either a boolean or a thrown
error. -/
structure TemplateInstanceModel where
  validateMetadata : Option Bool
  validateParams : Option (List (String × String) → Bool)
  createTemplatedFile : List (String × String) → List Ev × Except String Bool

/-- Tail of `handleUrlParams` after resolution and both validations
succeeded: run `createTemplatedFile` and report its result. -/
def afterParams (inst : TemplateInstanceModel) (t : String)
    (tp : List (String × String)) : List Ev :=
  let (evs, res) := inst.createTemplatedFile tp
  evs ++ [match res with
    | .ok true => .notice ("✅ Resource file created successfully for type=" ++ t)
    | .ok false => .notice ("❌ Failed to create resource file for type=" ++ t)
    | .error msg =>
      .notice ("❌ Failed to create resource file for type=" ++ t ++ ": " ++ msg)]

/-- `handleUrlParams` after the metadata validation: build
`templateParams = { type, url, title }` and run the parameter validation
when the instance has one. -/
def afterMeta (inst : TemplateInstanceModel) (t u ti : String) : List Ev :=
  let tp := [("type", t), ("url", u), ("title", ti)]
  match inst.validateParams with
  | some f =>
    if f tp then .paramsValidated tp true :: afterParams inst t tp
    else [.paramsValidated tp false,
      .notice ("Template " ++ t ++ " failed parameter validation")]
  | none => afterParams inst t tp

/-- `handleUrlParams` inside the `type && url && title` branch: resolve the
template (the `catch` turns a load failure into a notice), then validate
and dispatch. -/
def dispatchTemplate (load : Except String TemplateInstanceModel)
    (t u ti : String) : List Ev :=
  match load with
  | .error msg =>
    [.notice ("❌ Failed to create resource file for type=" ++ t ++ ": " ++ msg)]
  | .ok inst =>
    match inst.validateMetadata with
    | some false => [.metaValidated false,
        .notice ("Template " ++ t ++ " failed metadata validation")]
    | some true => .metaValidated true :: afterMeta inst t u ti
    | none => afterMeta inst t u ti

/-- `handleUrlParams` (src/main.ts:441-481): store the params, normalize
`type`/`url`/`title`, and either dispatch to the resolved template or stop
with the missing-parameter notice. -/
def handleUrlParams (load : Except String TemplateInstanceModel)
    (params : UrlBag) : List Ev :=
  Ev.notice "URL params received and stored." ::
    (let t := normalizeParam params "type"
     let u := normalizeParam params "url"
     let ti := normalizeParam params "title"
     if optTruthy t && optTruthy u && optTruthy ti then
       dispatchTemplate load (t.getD "") (u.getD "") (ti.getD "")
     else
       [.notice "❌ Missing required parameters: type, url, title"])

/-! The discovery scan. -/

/-- The shape checks the scan performs on a loaded instance, and the
behaviour of its optional `getMetadata`. -/
structure InstShape where
  hasCreateTemplatedFile : Bool
  hasPromptForFields : Bool
  getMetadata : Option (Except String MdVal)

/-- One candidate file of the scripts directory together with what loading
it (`runTemplateURLWithInjection`) does: throw, or produce an instance. -/
structure ScanCandidate where
  file : String
  load : Except String InstShape

/-- The display name of a discovered template: `metadata.name || type`,
where a missing `getMetadata`, a throwing `getMetadata`, or a throwing
property read falls back to the template key (the inner `try`). -/
def displayNameOf (type : String) (g : Option (Except String MdVal)) : String :=
  match g with
  | none => type
  | some (.error _) => type
  | some (.ok md) =>
    match md.getE "name" with
    | .error _ => type
    | .ok v => if v.truthy then v.toStr else type

/-- The scan loop over the candidate files (src/main.ts:559-582): each file
is loaded inside a `try`; a load failure or a missing mandatory operation
skips the file and continues with the rest. -/
def scanTemplates : List ScanCandidate → List (String × String)
  | [] => []
  | c :: rest =>
    let type := jsReplaceFirst c.file ".js" ""
    match c.load with
    | .error _ => scanTemplates rest
    | .ok inst =>
      if !(inst.hasCreateTemplatedFile && inst.hasPromptForFields) then
        scanTemplates rest
      else
        (type, displayNameOf type inst.getMetadata) :: scanTemplates rest

/-- The full discovery pass: `readdirSync` filtered to `.js` files, then
the scan loop. -/
def listTemplates (cs : List ScanCandidate) : List (String × String) :=
  scanTemplates (cs.filter (fun c => jsEndsWith c.file ".js"))

/-- A candidate is bad when loading it throws or the instance lacks one of
the two mandatory operations. -/
def isBadCandidate (c : ScanCandidate) : Bool :=
  match c.load with
  | .error _ => true
  | .ok inst => !(inst.hasCreateTemplatedFile && inst.hasPromptForFields)

/-! The export lookup of the sandbox loader. -/

/-- `${type.charAt(0).toUpperCase() + type.slice(1)}Template` — the export
name `runTemplateURLWithInjection` looks up. -/
def templateClassName (type : String) : String :=
  capitalizeFirst type ++ "Template"

/-- The two failure kinds of the loader: the script text threw while being
evaluated, or no matching export was found afterwards. -/
inductive LoadErr where
  | scriptLoadError (msg : String)
  | exportNotFound (className : String)
deriving DecidableEq

/-- The export extraction of `runTemplateURLWithInjection`
(src/main.ts:772-785): run the script text (the oracle `evalRes` is the
`module.exports` object it leaves behind, or the error it threw), then read
the export named `templateClassName type`; a falsy export throws the
not-found error. -/
def loadTemplateExport (type : String)
    (evalRes : Except String JsObj) : Except LoadErr JsValue :=
  match evalRes with
  | .error msg => .error (.scriptLoadError msg)
  | .ok exports =>
    let v := exports.get (templateClassName type)
    if !v.truthy then .error (.exportNotFound (templateClassName type))
    else .ok v

/-! The wishlist template (src/Scripts/Wishlist.js). -/

/-- The fields `WishlistTemplate.promptForFields` collects.  The price is a
non-negative amount held in cents: the per-field validator only accepts
parsed values with `parsed >= 0`, and the claims exercise amounts with at
most two decimals. -/
structure WFields where
  title : String
  price : Nat
  category : String
  thoughts : String
  priority : String
  status : String
  url : String
deriving DecidableEq

/-- `price.toFixed(2)` for a price of `cents` cents. -/
def toFixed2 (cents : Nat) : String :=
  toString (cents / 100) ++ "." ++
    (if cents % 100 < 10 then "0" else "") ++ toString (cents % 100)

/-- `title.replace(/[\\/:*?"<>|]/g, "-")`. -/
def sanitizeTitle (s : String) : String :=
  ⟨s.data.map (fun c =>
    if ['\\', '/', ':', '*', '?', '\"', '<', '>', '|'].contains c then '-'
    else c)⟩

/-- `WISHLIST_TEMPLATE_CONTENT`. -/
def WISHLIST_TEMPLATE_CONTENT : String :=
  "---\ntags: [wishlist]\nprice: \x7b\x7bPRICE\x7d\x7d\npriority: \x7b\x7bPRIORITY\x7d\x7d\ncategory: \x7b\x7bCATEGORY\x7d\x7d\nstatus: \x7b\x7bSTATUS\x7d\x7d\nurl: \x7b\x7bURL\x7d\x7d\n---\n\n# \x7b\x7bTITLE\x7d\x7d\n\n- [ ] Mark as Inactive\n\n## Details\n- **Price:** $\x7b\x7bPRICE\x7d\x7d\n- **Priority:** \x7b\x7bPRIORITY\x7d\x7d\n- **Category:** \x7b\x7bCATEGORY\x7d\x7d\n- **Status:** \x7b\x7bSTATUS\x7d\x7d\n\n- **Added:** \x7b\x7bADDED\x7d\x7d\n\n\x7b\x7bURL_SECTION\x7d\x7d\n\x7b\x7bTHOUGHTS_SECTION\x7d\x7d\n"

/-- The placeholder substitution chain of
`WishlistTemplate.createTemplatedFile` (src/Scripts/Wishlist.js:65-78);
`today` stands for `new Date().toISOString().split("T")[0]`. -/
def buildWishlistContent (f : WFields) (today : String) : String :=
  let sanitized := sanitizeTitle f.title
  let urlSection :=
    if f.url == "" then "" else "🔗 [**Product Link**](" ++ f.url ++ ")\n"
  let thoughtsSection :=
    if f.thoughts == "" then "" else "\n## 💭 Thoughts\n" ++ f.thoughts
  jsReplaceAll (jsReplaceAll (jsReplaceAll (jsReplaceAll (jsReplaceAll
    (jsReplaceAll (jsReplaceAll (jsReplaceAll (jsReplaceAll
      WISHLIST_TEMPLATE_CONTENT
      "\x7b\x7bTITLE\x7d\x7d" sanitized)
      "\x7b\x7bPRICE\x7d\x7d" (toFixed2 f.price))
      "\x7b\x7bCATEGORY\x7d\x7d" f.category)
      "\x7b\x7bPRIORITY\x7d\x7d" f.priority)
      "\x7b\x7bSTATUS\x7d\x7d" f.status)
      "\x7b\x7bURL\x7d\x7d" f.url)
      "\x7b\x7bADDED\x7d\x7d" today)
      "\x7b\x7bURL_SECTION\x7d\x7d" urlSection)
      "\x7b\x7bTHOUGHTS_SECTION\x7d\x7d" thoughtsSection

/-- `WishlistTemplate.createTemplatedFile` (src/Scripts/Wishlist.js:54-87).
`prompt` is the behaviour of `this.promptForFields` given the prefilled
title (`none` embeds `null`); `write` is the behaviour of
`Template.writeToFile` (`ok` writes, `error msg` is a caught write failure).
`Template.enforceTitleUrlType` throws on a falsy `title`, `url` or `type`,
which the method's own `catch` turns into `false`; the second `if (!type)`
check is unreachable after it. -/
def wishlistCreateTemplatedFile (prompt : String → Option WFields)
    (write : Except String Unit) (today : String)
    (params : List (String × String)) : List Ev × Except String Bool :=
  let title := (params.lookup "title").getD ""
  let url := (params.lookup "url").getD ""
  let ty := (params.lookup "type").getD ""
  if title == "" || url == "" || ty == "" then
    ([Ev.errorShown "WishlistTemplate"
        "createTemplatedFile requires params with non-empty title, url, and type"],
     .ok false)
  else
    match prompt (if title == "" then "" else title) with
    | none => ([Ev.collected title], .ok false)
    | some f =>
      let sanitized := sanitizeTitle f.title
      let content := buildWishlistContent f today
      match write with
      | .ok () =>
        ([Ev.collected title, Ev.wrote "Wishlist/Items" sanitized content,
          Ev.notice ("✅ [writeToFile] Resource captured: Wishlist/Items/" ++
            sanitized ++ ".md")], .ok true)
      | .error msg =>
        ([Ev.collected title, Ev.wrote "Wishlist/Items" sanitized content,
          Ev.errorShown "writeToFile" msg], .ok false)

/-- `WishlistTemplate.getMetadata` (src/Scripts/Wishlist.js:43-52). -/
def wishlistMetadataMd : MdVal :=
  .obj [("name", .str "Wishlist Template"),
    ("description",
      .str "Creates wishlist items with price, priority, and category tracking"),
    ("version", .str "1.0.0"),
    ("requiredFields", .arr [.str "title", .str "url", .str "type"]),
    ("optionalFields", .arr [.str "price", .str "category", .str "priority",
      .str "status", .str "thoughts"]),
    ("supportedTypes", .arr [.str "wishlist", .str "items"])]

/-- The wishlist template as `validateMetadata`/`validateParams` see it. -/
def wishlistTemplateModel : TemplateModel := ⟨.ok wishlistMetadataMd⟩

/-- String-valued dispatcher parameters as the `Record<string, any>` the
validators receive. -/
def stringParamsToJs (p : List (String × String)) : JsObj :=
  p.map (fun kv => (kv.1, .str kv.2))

/-- The wishlist template instance as the dispatcher sees it: the two
validators of the abstract base applied to the wishlist metadata, and the
wishlist `createTemplatedFile`. -/
def wishlistInstance (prompt : String → Option WFields)
    (write : Except String Unit) (today : String) : TemplateInstanceModel :=
  { validateMetadata := some (validateMetadataB wishlistTemplateModel)
    validateParams :=
      some (fun tp => validateParamsB wishlistTemplateModel (stringParamsToJs tp))
    createTemplatedFile := wishlistCreateTemplatedFile prompt write today }

/-! Claim-side definitions and concrete data used by the theorems. -/

/-- A prompt that fails retryably twice and then resolves. -/
def retryTwiceThenOk : Unit → Nat → PromptOutcome := fun _ k =>
  if k < 2 then .rejected true "Title cannot be empty"
  else .resolved (.str "A Title")

/-- PascalCase in the sense of the claim: split the key into alphanumeric
words at every non-alphanumeric character, capitalize each word, and
concatenate.  Stated from the claim's words, to compare against the
source's `templateClassName`. -/
def claimPascalAux : Bool → List Char → List Char
  | _, [] => []
  | atBoundary, c :: t =>
    if c.isAlphanum then
      (if atBoundary then c.toUpper else c) :: claimPascalAux false t
    else
      claimPascalAux true t

def claimPascalCase (s : String) : String :=
  ⟨claimPascalAux true s.data⟩

/-- A title modal that always answers with a valid title. -/
def c3TitleModal : Nat → PromptOutcome := fun _ => .resolved (.str "Some Title")

/-- Manual-creation oracles where the user submits an empty string at the
URL prompt. -/
def c3EmptyUrlOracles : ManualOracles :=
  ⟨fun _ => .resolved (.str ""), c3TitleModal, some [], fun _ => .ok true⟩

/-- Manual-creation oracles where the user cancels the URL prompt. -/
def c3CancelUrlOracles : ManualOracles :=
  ⟨fun _ => .resolved .null, c3TitleModal, some [], fun _ => .ok true⟩

def Ev.isParamsValidated : Ev → Bool
  | .paramsValidated _ _ => true
  | _ => false

def Ev.isCollected : Ev → Bool
  | .collected _ => true
  | _ => false

def Ev.isWrote : Ev → Bool
  | .wrote _ _ _ => true
  | _ => false

/-- The collected wishlist fields of the concrete C4 run. -/
def c4Fields : WFields :=
  ⟨"Foo", 1999, "Tech", "", "Medium", "Active", "https://x"⟩

/-- The inbound bag of the concrete C4 run (Scenario A). -/
def c4Bag : UrlBag :=
  [("type", .single "wishlist"), ("url", .single "https://x"),
   ("title", .single "Foo")]

/-- The trace of the concrete C4 run: wishlist template, all prompts
answered, write succeeding. -/
def c4Run : List Ev :=
  handleUrlParams
    (.ok (wishlistInstance (fun _ => some c4Fields) (.ok ()) "2026-10-11"))
    c4Bag

/-- The post-collection merged parameter set in the words of the claim:
the original (normalized) bag merged with the collected fields, collected
values taking precedence.  Stated from the claim's words, to compare
against what the code validates. -/
def claimMergedParams (bag : List (String × String)) (f : WFields) :
    List (String × String) :=
  let collected := [("title", f.title), ("price", toFixed2 f.price),
    ("category", f.category), ("thoughts", f.thoughts),
    ("priority", f.priority), ("status", f.status), ("url", f.url)]
  bag.filter (fun kv => !(collected.any (fun kv2 => kv2.1 == kv.1))) ++ collected

/-- Parameter validation in the words of the claim: every required field is
present in the candidate set and, when its value is a string, non-blank
after trimming; and when `supportedTypes` is declared and non-empty the
`type` value is a member.  Stated from the claim's words, to compare
against the source's `validateParams`. -/
def claimParamsOk (m : WMeta) (params : JsObj) : Bool :=
  m.requiredFields.all (fun fld =>
    match params.lookup fld with
    | none => false
    | some v => !(v.isStr && v.isBlankStr)) &&
  (match m.supportedTypes with
   | some ts =>
     if ts.isEmpty then true
     else match params.get "type" with
       | .str s => ts.contains s
       | _ => false
   | none => true)

/-- The three rules of metadata validation, in the order the claim lists
them. -/
inductive MetaRule where
  | nameRule
  | fieldsRule
  | supersetRule
deriving DecidableEq

/-- Which rule a validation-failure message cites: the two array-shape
messages both cite the non-empty-sequence rule. -/
def citedRule (msg : String) : Option MetaRule :=
  if isPrefixL "Template must include basic required fields: ".data msg.data
    then some .supersetRule
  else if msg == "Template metadata must have a valid name" then some .nameRule
  else if msg == "Template metadata must specify requiredFields as an array"
    then some .fieldsRule
  else if msg == "Template must specify at least one required field"
    then some .fieldsRule
  else none

/-- The name rule of the claim, as a check on the descriptor. -/
def nameOkB (md : MdVal) : Bool :=
  match md.field "name" with
  | .str s => !(s == "")
  | _ => false

/-- The non-empty-requiredFields rule of the claim. -/
def rfOkB (md : MdVal) : Bool :=
  match md.field "requiredFields" with
  | .arr xs => !xs.isEmpty
  | _ => false

/-! Helper lemmas. -/

theorem exbind_ok {ε α β : Type} (a : α) (f : α → Except ε β) :
    (Except.ok a : Except ε α) >>= f = f a := rfl

theorem exbind_err {ε α β : Type} (e : ε) (f : α → Except ε β) :
    (Except.error e : Except ε α) >>= f = Except.error e := rfl

/-! ## C8 — normalization of multi-valued entries -/

/-- C8: for every inbound parameter bag, normalization maps an entry whose
value is a sequence of strings to the first element of that sequence
(dropping the rest), and leaves a single-string value unchanged. -/
theorem c8_normalizeParam_spec (params : UrlBag) (k : String) :
    (∀ x xs, params.lookup k = some (.multi (x :: xs)) →
      normalizeParam params k = some x) ∧
    (∀ s, params.lookup k = some (.single s) →
      normalizeParam params k = some s) := by
  constructor
  · intro x xs h
    simp [normalizeParam, h]
  · intro s h
    simp [normalizeParam, h]

/-- Witness for C8 at a concrete bag: a repeated `type` collapses to its
first element and a single-valued `url` passes through. -/
theorem c8_normalizeParam_spec_witness :
    normalizeParam [("type", .multi ["wishlist", "items"]),
      ("url", .single "https://x")] "type" = some "wishlist" ∧
    normalizeParam [("type", .multi ["wishlist", "items"]),
      ("url", .single "https://x")] "url" = some "https://x" :=
  ⟨(c8_normalizeParam_spec _ "type").1 "wishlist" ["items"] rfl,
   (c8_normalizeParam_spec _ "url").2 "https://x" rfl⟩

/-! ## C7 — the missing-parameter guard -/

/-- C7: whenever, after normalization, any of `type`, `url`, `title` is
absent or empty, `handleUrlParams` stops with the missing-parameter notice:
the run consists of exactly the two notices, so no template processing
happens and no write event can occur. -/
theorem c7_handleUrlParams_missing (load : Except String TemplateInstanceModel)
    (params : UrlBag)
    (h : (optTruthy (normalizeParam params "type") &&
          optTruthy (normalizeParam params "url") &&
          optTruthy (normalizeParam params "title")) = false) :
    handleUrlParams load params =
      [.notice "URL params received and stored.",
       .notice "❌ Missing required parameters: type, url, title"] := by
  simp only [handleUrlParams, h, Bool.false_eq_true, if_false]

/-- Witness for C7: the bag of Scenario C (missing `title`) aborts with the
missing-parameter notice. -/
theorem c7_handleUrlParams_missing_witness :
    handleUrlParams (.error "unused")
      [("type", .single "wishlist"), ("url", .single "https://x")] =
      [.notice "URL params received and stored.",
       .notice "❌ Missing required parameters: type, url, title"] :=
  c7_handleUrlParams_missing (.error "unused") _ (by decide)

/-! ## C10 — totality of the two validators -/

/-- C10: `validateMetadata` and `validateParams` always return a boolean to
their caller and never propagate an exception, whatever `getMetadata` does
(throwing, or returning a malformed descriptor) and whatever the parameter
set is: the observed computation is an `ok` boolean for every template
model. -/
theorem c10_validators_total (t : TemplateModel) (params : JsObj) :
    (∃ b, validateMetadataJs t = .ok b) ∧
    (∃ b, validateParamsJs t params = .ok b) := by
  constructor
  · unfold validateMetadataJs jsTryCatchFalse
    cases validateMetadataBody t with
    | ok b => exact ⟨b, rfl⟩
    | error e => exact ⟨false, rfl⟩
  · unfold validateParamsJs jsTryCatchFalse
    cases validateParamsBody t params with
    | ok b => exact ⟨b, rfl⟩
    | error e => exact ⟨false, rfl⟩

/-! ## C1 — one bad file never aborts the discovery scan -/

theorem scanTemplates_skip_bad (c : ScanCandidate) (h : isBadCandidate c = true)
    (l : List ScanCandidate) : scanTemplates (c :: l) = scanTemplates l := by
  unfold isBadCandidate at h
  cases hl : c.load with
  | error e =>
    conv_lhs => rw [scanTemplates.eq_def]
    simp only [hl]
  | ok inst =>
    rw [hl] at h
    have h3 : (!(inst.hasCreateTemplatedFile && inst.hasPromptForFields)) = true := h
    have h2 : (inst.hasCreateTemplatedFile && inst.hasPromptForFields) = false := by
      cases hx : (inst.hasCreateTemplatedFile && inst.hasPromptForFields)
      · rfl
      · rw [hx] at h3
        exact absurd h3 (by decide)
    conv_lhs => rw [scanTemplates.eq_def]
    simp only [hl, h2, Bool.not_false, if_true]

theorem scanTemplates_middle_bad (c : ScanCandidate)
    (h : isBadCandidate c = true) :
    ∀ (A B : List ScanCandidate),
      scanTemplates (A ++ c :: B) = scanTemplates (A ++ B) := by
  intro A
  induction A with
  | nil => intro B; exact scanTemplates_skip_bad c h B
  | cons a A ih =>
    intro B
    simp only [List.cons_append]
    unfold scanTemplates
    cases a.load with
    | error e => exact ih B
    | ok inst =>
      by_cases hs : (inst.hasCreateTemplatedFile && inst.hasPromptForFields) = true
      · simp [hs, ih B]
      · simp [Bool.not_eq_true] at hs
        simp [hs, ih B]

/-- C1: a candidate file whose load throws or whose instance lacks one of
the two mandatory operations is skipped, and a discovery pass over a
directory containing it produces exactly the (key, displayName) pairs of
the pass without it, in the same order. -/
theorem c1_scan_isolates_bad_file (xs : List ScanCandidate) (c : ScanCandidate)
    (ys : List ScanCandidate) (h : isBadCandidate c = true) :
    listTemplates (xs ++ c :: ys) = listTemplates (xs ++ ys) := by
  unfold listTemplates
  rw [List.filter_append, List.filter_append, List.filter_cons]
  by_cases hc : jsEndsWith c.file ".js" = true
  · simp only [hc, if_true]
    exact scanTemplates_middle_bad c h _ _
  · simp only [Bool.not_eq_true] at hc
    simp [hc]

/-- Witness for C1: between two valid templates, a file that throws on load
is dropped and the other two survive with unchanged keys and names. -/
theorem c1_scan_isolates_bad_file_witness :
    listTemplates
      [⟨"Wishlist.js", .ok ⟨true, true, some (.ok wishlistMetadataMd)⟩⟩,
       ⟨"Broken.js", .error "SyntaxError"⟩,
       ⟨"Movie.js", .ok ⟨true, true, none⟩⟩] =
    listTemplates
      [⟨"Wishlist.js", .ok ⟨true, true, some (.ok wishlistMetadataMd)⟩⟩,
       ⟨"Movie.js", .ok ⟨true, true, none⟩⟩] :=
  c1_scan_isolates_bad_file
    [⟨"Wishlist.js", .ok ⟨true, true, some (.ok wishlistMetadataMd)⟩⟩]
    ⟨"Broken.js", .error "SyntaxError"⟩
    [⟨"Movie.js", .ok ⟨true, true, none⟩⟩] rfl

/-! ## C2 — the retry loop re-issues the identical request -/

/-- C2: through `promptWithRetry`, a run whose first `n` invocations (all
called as `promptFn promptArgs`, with the arguments unchanged) raise a
retryable `InputError` and whose invocation `n` settles some other way
returns exactly the settlement of invocation `n`: values pass through,
a nullish resolution or a non-retryable error yields `null`, and a
retryable failure is never what the caller receives; the run surfaces one
retry notice per retryable failure. -/
theorem c2_promptWithRetry_retries {α : Type} (f : α → Nat → PromptOutcome)
    (args : α) (ctx : String) :
    ∀ (n m j : Nat),
      (∀ k, k < n → (f args (j + k)).isRetryable = true) →
      (f args (j + n)).isRetryable = false →
      (promptWithRetryEv (n + m + 1) f args ctx j).1 =
        some (settleOutcome (f args (j + n))) ∧
      ((promptWithRetryEv (n + m + 1) f args ctx j).2.countP
        (fun e => match e with | .retried _ => true | _ => false)) = n := by
  intro n
  induction n with
  | zero =>
    intro m j _ hstop
    rw [Nat.add_zero] at hstop
    rw [Nat.zero_add]
    cases ho : f args j with
    | resolved v =>
      have hev : promptWithRetryEv (m + 1) f args ctx j =
          (some (if v.isNullish then .null else v), []) := by
        rw [promptWithRetryEv.eq_def]
        simp [ho]
      rw [hev]
      simp [settleOutcome, ho]
    | rejected isInput msg =>
      cases isInput with
      | true =>
        rw [ho] at hstop
        simp [PromptOutcome.isRetryable] at hstop
      | false =>
        have hev : promptWithRetryEv (m + 1) f args ctx j =
            (some .null, [.errorShown ctx msg]) := by
          rw [promptWithRetryEv.eq_def]
          simp [ho]
        rw [hev]
        simp [settleOutcome, ho, List.countP_cons]
  | succ n ih =>
    intro m j hret hstop
    have h0 : (f args j).isRetryable = true := by
      have := hret 0 (Nat.succ_pos n)
      rwa [Nat.add_zero] at this
    cases ho : f args j with
    | resolved v =>
      rw [ho] at h0
      simp [PromptOutcome.isRetryable] at h0
    | rejected isInput msg =>
      cases isInput with
      | false =>
        rw [ho] at h0
        simp [PromptOutcome.isRetryable] at h0
      | true =>
        have harith : n + 1 + m + 1 = (n + m + 1) + 1 := by omega
        rw [harith]
        rcases hre : promptWithRetryEv (n + m + 1) f args ctx (j + 1) with ⟨r, evs⟩
        have hev : promptWithRetryEv ((n + m + 1) + 1) f args ctx j =
            (r, .retried ("Invalid input, please amend and try again.\n" ++ msg)
              :: evs) := by
          rw [promptWithRetryEv.eq_def]
          simp [ho, hre]
        rw [hev]
        have hret2 : ∀ k, k < n → (f args (j + 1 + k)).isRetryable = true := by
          intro k hk
          have := hret (k + 1) (by omega)
          have he : j + (k + 1) = j + 1 + k := by omega
          rwa [he] at this
        have hstop2 : (f args (j + 1 + n)).isRetryable = false := by
          have he : j + (n + 1) = j + 1 + n := by omega
          rwa [he] at hstop
        have hres := ih m (j + 1) hret2 hstop2
        rw [hre] at hres
        have he : j + 1 + n = j + (n + 1) := by omega
        rw [he] at hres
        refine ⟨hres.1, ?_⟩
        simp only [List.countP_cons]
        simp [hres.2]



/-- Witness for C2: two consecutive retryable failures are re-prompted and
the third attempt's value is returned, with two retry notices shown. -/
theorem c2_promptWithRetry_retries_witness :
    (promptWithRetryEv 4 retryTwiceThenOk () "ctx" 0).1 =
      some (settleOutcome (retryTwiceThenOk () 2)) ∧
    ((promptWithRetryEv 4 retryTwiceThenOk () "ctx" 0).2.countP
      (fun e => match e with | .retried _ => true | _ => false)) = 2 :=
  c2_promptWithRetry_retries retryTwiceThenOk () "ctx" 2 1 0
    (fun k hk => by
      unfold retryTwiceThenOk
      rw [Nat.zero_add, if_pos hk]
      rfl)
    (by decide)

/-! ## C9 — the export name of the loader -/



/-- Counterexample to C9: for the key "url-note", the code looks up
`Url-noteTemplate` (only the first character is uppercased), while the
PascalCase form of the key suffixed with `Template` is `UrlNoteTemplate`;
the two differ, so the claim's naming rule does not hold for every key. -/
theorem c9_counterexample :
    templateClassName "url-note" = "Url-noteTemplate" ∧
    claimPascalCase "url-note" ++ "Template" = "UrlNoteTemplate" ∧
    templateClassName "url-note" ≠ claimPascalCase "url-note" ++ "Template" := by
  refine ⟨rfl, rfl, ?_⟩
  decide

/-- C9 (amended): loading looks up the export named by the key with its
first character uppercased, suffixed `Template` (so the single-word key
`wishlist` yields `WishlistTemplate`); loading fails with a script-load
error when evaluating the source raises, with an export-not-found error
when evaluation succeeds but the export of that name is absent (or falsy),
and it yields the export when a truthy one exists. -/
theorem c9_loadTemplateExport_spec (type : String) :
    templateClassName "wishlist" = "WishlistTemplate" ∧
    (∀ msg, loadTemplateExport type (.error msg) =
      .error (.scriptLoadError msg)) ∧
    (∀ exports : JsObj, (exports.get (templateClassName type)).truthy = false →
      loadTemplateExport type (.ok exports) =
        .error (.exportNotFound (templateClassName type))) ∧
    (∀ exports : JsObj, (exports.get (templateClassName type)).truthy = true →
      loadTemplateExport type (.ok exports) =
        .ok (exports.get (templateClassName type))) := by
  refine ⟨rfl, fun msg => rfl, ?_, ?_⟩
  · intro exports h
    simp [loadTemplateExport, h]
  · intro exports h
    simp [loadTemplateExport, h]

/-- Witness for C9 (amended): loading the key `wishlist` from an exports
object holding `WishlistTemplate` succeeds; from an empty exports object it
fails with the not-found error; a throwing evaluation fails with the load
error. -/
theorem c9_loadTemplateExport_spec_witness :
    loadTemplateExport "wishlist" (.error "SyntaxError") =
      .error (.scriptLoadError "SyntaxError") ∧
    loadTemplateExport "wishlist" (.ok []) =
      .error (.exportNotFound "WishlistTemplate") ∧
    loadTemplateExport "wishlist"
      (.ok [("WishlistTemplate", .str "classValue")]) =
      .ok (JsObj.get [("WishlistTemplate", .str "classValue")]
        "WishlistTemplate") :=
  ⟨(c9_loadTemplateExport_spec "wishlist").2.1 "SyntaxError",
   (c9_loadTemplateExport_spec "wishlist").2.2.1 [] rfl,
   (c9_loadTemplateExport_spec "wishlist").2.2.2
     [("WishlistTemplate", .str "classValue")] rfl⟩

/-! ## C3 — the cancellation sentinel versus an empty string -/



/-- Counterexample to C3: submitting an empty string at the URL step of
`createManualTemplate` terminates the chain exactly the way the
cancellation sentinel does — both runs return `false` after the URL step
with identical traces, and the title step is never reached — so the null
sentinel is not the only terminator and an empty string is not treated
differently from it. -/
theorem c3_counterexample :
    createManualTemplate 3 c3EmptyUrlOracles "wishlist" =
      createManualTemplate 3 c3CancelUrlOracles "wishlist" ∧
    (createManualTemplate 3 c3EmptyUrlOracles "wishlist").1 = some false ∧
    ¬ (MEv.step "title") ∈ (createManualTemplate 3 c3EmptyUrlOracles "wishlist").2 := by
  refine ⟨rfl, rfl, ?_⟩
  decide

/-- C3 (amended): inside `promptWithRetry` only the nullish result is the
cancellation sentinel — an empty string resolved by a step is returned to
the chain as the value `""`, distinct from the sentinel `null` — and
cancellation at the URL step of `createManualTemplate` abandons the
operation with result `false`, running no later step and showing no error
notice; however the chain guards its steps on falsiness, so an
empty-string value at the URL step terminates the chain the same way. -/
theorem c3_amended {α : Type} (fuel : Nat) (f : α → Nat → PromptOutcome)
    (args : α) (ctx : String) (i : Nat) (o : ManualOracles) (ty : String) :
    (f args i = .resolved (.str "") →
      (promptWithRetryEv (fuel + 1) f args ctx i).1 = some (.str "") ∧
      (some (JsValue.str "") ≠ some JsValue.null)) ∧
    (f args i = .resolved .null →
      (promptWithRetryEv (fuel + 1) f args ctx i).1 = some .null) ∧
    (o.urlModal 0 = .resolved .null →
      createManualTemplate (fuel + 1) o ty = (some false, [MEv.step "url"])) ∧
    (o.urlModal 0 = .resolved (.str "") →
      createManualTemplate (fuel + 1) o ty = (some false, [MEv.step "url"])) := by
  refine ⟨?_, ?_, ?_, ?_⟩
  · intro h
    constructor
    · rw [promptWithRetryEv.eq_def]
      simp [h, JsValue.isNullish]
    · intro hc
      exact JsValue.noConfusion (Option.some.inj hc)
  · intro h
    rw [promptWithRetryEv.eq_def]
    simp [h, JsValue.isNullish]
  · intro h
    have hev : promptWithRetryEv (fuel + 1) (fun _ k => o.urlModal k) ()
        "Template.createManualTemplate" 0 = (some .null, []) := by
      rw [promptWithRetryEv.eq_def]
      simp [h, JsValue.isNullish]
    simp only [createManualTemplate]
    rw [hev]
    simp [JsValue.truthy]
  · intro h
    have hev : promptWithRetryEv (fuel + 1) (fun _ k => o.urlModal k) ()
        "Template.createManualTemplate" 0 = (some (.str ""), []) := by
      rw [promptWithRetryEv.eq_def]
      simp [h, JsValue.isNullish]
    simp only [createManualTemplate]
    rw [hev]
    simp [JsValue.truthy]

/-- Witness for C3 (amended) at concrete oracles: cancellation and the
empty string both abandon the manual chain after the URL step. -/
theorem c3_amended_witness :
    createManualTemplate 3 c3CancelUrlOracles "wishlist" =
      (some false, [MEv.step "url"]) ∧
    createManualTemplate 3 c3EmptyUrlOracles "wishlist" =
      (some false, [MEv.step "url"]) :=
  ⟨(c3_amended 2 (fun (_ : Unit) k => c3CancelUrlOracles.urlModal k) () "c" 0
      c3CancelUrlOracles "wishlist").2.2.1 rfl,
   (c3_amended 2 (fun (_ : Unit) k => c3EmptyUrlOracles.urlModal k) () "c" 0
      c3EmptyUrlOracles "wishlist").2.2.2 rfl⟩

/-! ## C4 — the order of the automated (protocol) path -/



/-- Counterexample to C4: in a successful automated run the only parameter
validation is applied to the normalized three-field bag, it happens before
the field-collection event, a file is nevertheless written, and the
validated set is not the post-collection merged parameter set — so
parameter validation is not applied to the merged final set before the
write, contrary to the claimed order. -/
theorem c4_counterexample :
    c4Run.filter Ev.isParamsValidated =
      [Ev.paramsValidated
        [("type", "wishlist"), ("url", "https://x"), ("title", "Foo")] true] ∧
    c4Run.findIdx Ev.isParamsValidated < c4Run.findIdx Ev.isCollected ∧
    c4Run.any Ev.isWrote = true ∧
    [("type", "wishlist"), ("url", "https://x"), ("title", "Foo")] ≠
      claimMergedParams
        [("type", "wishlist"), ("url", "https://x"), ("title", "Foo")]
        c4Fields := by
  refine ⟨?_, ?_, ?_, ?_⟩ <;> decide

/-- C4 (amended): in the automated path the steps occur in this order —
normalize the bag, require non-empty `type`/`url`/`title`, resolve the
template, run metadata validation, run parameter validation on the
normalized three-field set `{type, url, title}`, then call
`createTemplatedFile`, which runs the field-collection chain seeded with
the supplied title only (the url is not passed as a seed), builds the
content from the collected fields and materializes it; no parameter
validation is applied to the post-collection merged set. -/
theorem c4_amended (params : UrlBag) (prompt : String → Option WFields)
    (today : String) (t u ti : String) (f : WFields)
    (hT : normalizeParam params "type" = some t) (ht : t ≠ "")
    (hU : normalizeParam params "url" = some u) (hu : u ≠ "")
    (hTi : normalizeParam params "title" = some ti) (hti : ti ≠ "")
    (hv : validateParamsB wishlistTemplateModel
      (stringParamsToJs [("type", t), ("url", u), ("title", ti)]) = true)
    (hp : prompt ti = some f) :
    handleUrlParams (.ok (wishlistInstance prompt (.ok ()) today)) params =
      [.notice "URL params received and stored.",
       .metaValidated true,
       .paramsValidated [("type", t), ("url", u), ("title", ti)] true,
       .collected ti,
       .wrote "Wishlist/Items" (sanitizeTitle f.title)
         (buildWishlistContent f today),
       .notice ("✅ [writeToFile] Resource captured: Wishlist/Items/" ++
         sanitizeTitle f.title ++ ".md"),
       .notice ("✅ Resource file created successfully for type=" ++ t)] := by
  have hm : validateMetadataB wishlistTemplateModel = true := by decide
  have hbt : (t == "") = false := by simp [ht]
  have hbu : (u == "") = false := by simp [hu]
  have hbti : (ti == "") = false := by simp [hti]
  have g1 : (optTruthy (normalizeParam params "type") &&
      optTruthy (normalizeParam params "url") &&
      optTruthy (normalizeParam params "title")) = true := by
    simp [hT, hU, hTi, optTruthy, hbt, hbu, hbti]
  simp only [handleUrlParams, hT, hU, hTi, g1, if_true, Option.getD_some]
  simp only [dispatchTemplate, wishlistInstance, hm]
  simp only [afterMeta, hv, if_true]
  simp only [afterParams, wishlistCreateTemplatedFile]
  simp [List.lookup, hbt, hbu, hbti, hp, optTruthy]

/-- Witness for C4 (amended) at the Scenario A bag. -/
theorem c4_amended_witness :
    handleUrlParams
      (.ok (wishlistInstance (fun _ => some c4Fields) (.ok ()) "2026-10-11"))
      c4Bag =
      [.notice "URL params received and stored.",
       .metaValidated true,
       .paramsValidated
         [("type", "wishlist"), ("url", "https://x"), ("title", "Foo")] true,
       .collected "Foo",
       .wrote "Wishlist/Items" (sanitizeTitle c4Fields.title)
         (buildWishlistContent c4Fields "2026-10-11"),
       .notice ("✅ [writeToFile] Resource captured: Wishlist/Items/" ++
         sanitizeTitle c4Fields.title ++ ".md"),
       .notice ("✅ Resource file created successfully for type=" ++
         "wishlist")] :=
  c4_amended c4Bag (fun _ => some c4Fields) "2026-10-11"
    "wishlist" "https://x" "Foo" c4Fields
    rfl (by decide) rfl (by decide) rfl (by decide) (by decide) rfl

/-! ## C6 — parameter validation -/



/-- Counterexample to C6: a candidate set carrying the number `0` for the
required field `price` satisfies the claim's acceptance condition (the
field is present and its value is not a string), yet `validateParams`
rejects it — the code requires a truthy value, not mere presence. -/
theorem c6_counterexample :
    claimParamsOk ⟨"M", ["price"], none⟩ [("price", .num 0)] = true ∧
    validateParamsOn ⟨"M", ["price"], none⟩ [("price", .num 0)] = false := by
  refine ⟨?_, ?_⟩ <;> decide

theorem checkRequiredFields_ok_iff (fs : List String) (params : JsObj) :
    checkRequiredFields (fs.map .str) params = .ok () ↔
      ∀ fld ∈ fs, (params.get fld).truthy = true ∧
        (params.get fld).isBlankStr = false := by
  induction fs with
  | nil => simp [checkRequiredFields]
  | cons a fs ih =>
    simp only [List.map_cons, checkRequiredFields, JsValue.toStr]
    cases hv : (!(params.get a).truthy || (params.get a).isBlankStr) with
    | false =>
      rw [if_neg (by simp [hv])]
      have ha : (params.get a).truthy = true ∧
          (params.get a).isBlankStr = false := by
        rcases Bool.or_eq_false_iff.mp hv with ⟨h1, h2⟩
        exact ⟨by simpa using h1, h2⟩
      simp [ih, ha]
    | true =>
      rw [if_pos (by simp [hv])]
      constructor
      · intro h
        exact Except.noConfusion h
      · intro h
        have := h a (by simp)
        rw [this.1, this.2] at hv
        simp at hv

theorem strArrMem_iff (ts : List String) (v : JsValue) :
    ((ts.map JsValue.str).any (fun e => e.primEq v)) = true ↔
      ∃ s, v = .str s ∧ s ∈ ts := by
  induction ts with
  | nil => simp
  | cons x ts ih =>
    simp only [List.map_cons, List.any_cons, Bool.or_eq_true, ih]
    constructor
    · rintro (h | ⟨s, rfl, hs⟩)
      · cases v with
        | str s =>
          have hx : x = s := by simpa [JsValue.primEq] using h
          exact ⟨s, rfl, by simp [← hx]⟩
        | num n => simp [JsValue.primEq] at h
        | bool b => simp [JsValue.primEq] at h
        | null => simp [JsValue.primEq] at h
        | undefined => simp [JsValue.primEq] at h
        | arr es => simp [JsValue.primEq] at h
      · exact ⟨s, rfl, List.mem_cons_of_mem x hs⟩
    · rintro ⟨s, rfl, hs⟩
      rcases List.mem_cons.mp hs with h | h
      · left
        simp [JsValue.primEq, h]
      · right
        exact ⟨s, rfl, h⟩

/-- C6 (amended): parameter validation succeeds iff every field named in
`requiredFields` is present with a truthy value (in particular not `0`,
`false`, `null` or the empty string) that is not a blank string after
trimming, and, when `supportedTypes` is declared and non-empty, the `type`
value is one of its member strings; so it rejects a candidate set missing a
required field or carrying a non-member type, and accepts every member
type. -/
theorem c6_validateParams_characterization (m : WMeta) (params : JsObj) :
    validateParamsOn m params = true ↔
      ((∀ fld ∈ m.requiredFields, (params.get fld).truthy = true ∧
          (params.get fld).isBlankStr = false) ∧
       (∀ ts, m.supportedTypes = some ts → ts ≠ [] →
          ∃ s, params.get "type" = .str s ∧ s ∈ ts)) := by
  have hrf : (WMeta.toMdVal m).getE "requiredFields" =
      .ok (.arr (m.requiredFields.map .str)) := by
    simp [WMeta.toMdVal, MdVal.getE, JsObj.get, List.lookup]
  unfold validateParamsOn validateParamsB validateParamsJs jsTryCatchFalse
  unfold validateParamsBody
  simp only [exbind_ok, hrf]
  cases hc : checkRequiredFields (m.requiredFields.map .str) params with
  | error e =>
    simp only [exbind_err]
    constructor
    · intro h
      exact absurd (show false = true from h) (by decide)
    · intro h
      have hok := (checkRequiredFields_ok_iff m.requiredFields params).mpr h.1
      rw [hc] at hok
      exact Except.noConfusion hok
  | ok u =>
    cases u
    simp only [exbind_ok]
    have hfs : ∀ fld ∈ m.requiredFields, (params.get fld).truthy = true ∧
        (params.get fld).isBlankStr = false :=
      (checkRequiredFields_ok_iff m.requiredFields params).mp hc
    rcases hst : m.supportedTypes with _ | ts
    · have hstv : (WMeta.toMdVal m).getE "supportedTypes" = .ok .undefined := by
        simp [WMeta.toMdVal, MdVal.getE, JsObj.get, List.lookup, hst]
      simp only [hstv, exbind_ok]
      constructor
      · intro _
        exact ⟨hfs, fun ts3 h3 => Option.noConfusion h3⟩
      · intro _
        rfl
    · cases ts with
      | nil =>
        have hstv : (WMeta.toMdVal m).getE "supportedTypes" =
            .ok (.arr []) := by
          simp [WMeta.toMdVal, MdVal.getE, JsObj.get, List.lookup, hst]
        simp only [hstv, exbind_ok]
        constructor
        · intro _
          refine ⟨hfs, ?_⟩
          intro ts3 h3 h4
          exact absurd (Option.some.inj h3).symm h4
        · intro _
          rfl
      | cons x ts2 =>
        have hstv : (WMeta.toMdVal m).getE "supportedTypes" =
            .ok (.arr (JsValue.str x :: ts2.map .str)) := by
          simp [WMeta.toMdVal, MdVal.getE, JsObj.get, List.lookup, hst]
        simp only [hstv, exbind_ok, jsIncludes, jsJoinE]
        cases hmem : ((JsValue.str x :: ts2.map JsValue.str).any
            (fun e => e.primEq (params.get "type"))) with
        | true =>
          simp only [exbind_ok]
          constructor
          · intro _
            refine ⟨hfs, ?_⟩
            intro ts3 h3 _
            have h4 := Option.some.inj h3
            have hmem2 : (((x :: ts2).map JsValue.str).any
                (fun e => e.primEq (params.get "type"))) = true := by
              simpa using hmem
            rcases (strArrMem_iff (x :: ts2) (params.get "type")).mp hmem2
              with ⟨s, hs1, hs2⟩
            exact ⟨s, hs1, h4 ▸ hs2⟩
          · intro _
            simp [JsValue.truthy, jsLengthPos, pure, Except.pure, exbind_ok]
        | false =>
          constructor
          · intro h
            simp [JsValue.truthy, jsLengthPos, pure, Except.pure,
              exbind_ok, throwThe, MonadExcept.throw] at h
          · intro h
            rcases h.2 (x :: ts2) rfl (by simp) with ⟨s, hs1, hs2⟩
            have hm2 : (((x :: ts2).map JsValue.str).any
                (fun e => e.primEq (params.get "type"))) = true :=
              (strArrMem_iff _ _).mpr ⟨s, hs1, hs2⟩
            rw [List.map_cons] at hm2
            rw [hm2] at hmem
            exact Bool.noConfusion hmem

/-- Witness for C6 (amended): the wishlist descriptor accepts the bag of
Scenario A through the characterisation. -/
theorem c6_validateParams_characterization_witness :
    validateParamsOn ⟨"W", ["title", "url", "type"], some ["wishlist", "items"]⟩
      [("type", .str "wishlist"), ("url", .str "https://x"),
       ("title", .str "Foo")] = true :=
  (c6_validateParams_characterization
    ⟨"W", ["title", "url", "type"], some ["wishlist", "items"]⟩
    [("type", .str "wishlist"), ("url", .str "https://x"),
     ("title", .str "Foo")]).mpr
    (by
      constructor
      · intro fld hfld
        simp only [List.mem_cons, List.not_mem_nil, or_false] at hfld
        rcases hfld with rfl | rfl | rfl
        · exact ⟨by decide, by decide⟩
        · exact ⟨by decide, by decide⟩
        · exact ⟨by decide, by decide⟩
      · intro ts hts hne
        cases hts
        exact ⟨"wishlist", rfl, by decide⟩)

/-! ## C5 — metadata validation -/



theorem isPrefixL_self_append (l t : List Char) : isPrefixL l (l ++ t) = true := by
  induction l with
  | nil => rfl
  | cons c l ih => simp [isPrefixL, ih]

theorem c5aux_iff (md : MdVal) :
    validateMetadataOn md = true ↔
      ((∃ s, md.field "name" = .str s ∧ s ≠ "") ∧
       (∃ xs, md.field "requiredFields" = .arr xs ∧ xs ≠ [] ∧
         ∀ f ∈ ["title", "url", "type"],
           xs.any (fun e => e.primEq (.str f)) = true)) := by
  cases md with
  | prim v =>
    constructor
    · intro h
      cases v <;>
        simp [validateMetadataOn, validateMetadataB, validateMetadataJs,
          jsTryCatchFalse, validateMetadataBody, MdVal.getE, exbind_ok,
          exbind_err, JsValue.truthy, JsValue.isStr] at h
    · rintro ⟨⟨s, hs, _⟩, _⟩
      simp [MdVal.field] at hs
  | obj fs =>
    unfold validateMetadataOn validateMetadataB validateMetadataJs
    unfold jsTryCatchFalse validateMetadataBody
    simp only [exbind_ok, MdVal.getE, MdVal.field]
    cases hn : JsObj.get fs "name" with
    | str s =>
      cases hse : (s == "") with
      | true =>
        have hs0 : s = "" := by simpa using hse
        simp [JsValue.truthy, JsValue.isStr, hse, hs0]
      | false =>
        have hs0 : s ≠ "" := by simpa using hse
        simp only [JsValue.truthy, JsValue.isStr, hse, Bool.not_false,
          Bool.not_true, Bool.or_false, if_false]
        cases hr : JsObj.get fs "requiredFields" with
        | arr xs =>
          cases xs with
          | nil => simp
          | cons x xs2 =>
            simp only [List.length_cons]
            cases hm : (["title", "url", "type"].filter
                (fun f => !((x :: xs2).any (fun e => e.primEq (.str f))))).isEmpty with
            | true =>
              have hall : ∀ f ∈ ["title", "url", "type"],
                  (x :: xs2).any (fun e => e.primEq (.str f)) = true := by
                rw [List.isEmpty_iff, List.filter_eq_nil_iff] at hm
                intro f hf
                have h2 := hm f hf
                cases hany : ((x :: xs2).any fun e => e.primEq (JsValue.str f)) with
                | true => rfl
                | false => exact absurd (by simp [hany]) h2
              constructor
              · intro _
                exact ⟨⟨s, rfl, hs0⟩, ⟨x :: xs2, rfl, by simp, hall⟩⟩
              · intro _
                rfl
            | false =>
              have hne : (["title", "url", "type"].filter
                  (fun f => !((x :: xs2).any (fun e => e.primEq (.str f))))) ≠
                    [] := by
                intro hnil
                rw [hnil] at hm
                simp at hm
              have hnall : ¬ ∀ f ∈ ["title", "url", "type"],
                  (x :: xs2).any (fun e => e.primEq (.str f)) = true := by
                intro hall
                apply hne
                rw [List.filter_eq_nil_iff]
                intro f hf
                simp [hall f hf]
              constructor
              · intro h
                exact Bool.noConfusion (show false = true from h)
              · rintro ⟨_, ⟨xs3, hxs, _, hall2⟩⟩
                cases hxs
                exact absurd hall2 hnall
        | str s2 => simp
        | num n => simp
        | bool b => simp
        | null => simp
        | undefined => simp
    | num n => simp [JsValue.truthy, JsValue.isStr]
    | bool b => simp [JsValue.truthy, JsValue.isStr]
    | null => simp [JsValue.truthy, JsValue.isStr]
    | undefined => simp [JsValue.truthy, JsValue.isStr]
    | arr es => simp [JsValue.truthy, JsValue.isStr]

theorem c5aux_error (fs : JsObj) (msg : String)
    (h : validateMetadataBody ⟨.ok (.obj fs)⟩ = .error msg) :
    citedRule msg = some
      (if !nameOkB (.obj fs) then .nameRule
       else if !rfOkB (.obj fs) then .fieldsRule
       else .supersetRule) := by
  unfold validateMetadataBody at h
  simp only [exbind_ok, MdVal.getE] at h
  cases hn : JsObj.get fs "name" with
  | str s =>
    rw [hn] at h
    cases hse : (s == "") with
    | true =>
      rw [show ((!(JsValue.str s).truthy || !(JsValue.str s).isStr)) = true
          from by simp [JsValue.truthy, JsValue.isStr, hse]] at h
      simp only [if_true] at h
      have hmsg : msg = "Template metadata must have a valid name" :=
        (Except.error.inj h).symm
      rw [hmsg, show citedRule "Template metadata must have a valid name" =
        some .nameRule from by decide]
      simp [nameOkB, MdVal.field, hn, hse]
    | false =>
      rw [show ((!(JsValue.str s).truthy || !(JsValue.str s).isStr)) = false
          from by simp [JsValue.truthy, JsValue.isStr, hse]] at h
      simp only [Bool.false_eq_true, if_false] at h
      have hname : nameOkB (.obj fs) = true := by
        simp [nameOkB, MdVal.field, hn, hse]
      cases hr : JsObj.get fs "requiredFields" with
      | arr xs =>
        rw [hr] at h
        cases xs with
        | nil =>
          simp only [List.length_nil] at h
          have hmsg : msg = "Template must specify at least one required field" :=
            (Except.error.inj h).symm
          rw [hmsg, show citedRule
            "Template must specify at least one required field" =
            some .fieldsRule from by decide]
          simp [hname, rfOkB, MdVal.field, hr]
        | cons x xs2 =>
          simp only [List.length_cons] at h
          cases hm : (["title", "url", "type"].filter
              (fun f => !((x :: xs2).any (fun e => e.primEq (.str f))))).isEmpty with
          | true =>
            rw [hm] at h
            simp only [if_true] at h
            exact absurd h (by simp [pure, Except.pure])
          | false =>
            rw [hm] at h
            simp only [Bool.false_eq_true, if_false] at h
            have hmsg : msg = "Template must include basic required fields: " ++
                String.intercalate ", " (["title", "url", "type"].filter
                  (fun f => !((x :: xs2).any (fun e => e.primEq (.str f))))) :=
              (Except.error.inj h).symm
            rw [hmsg]
            have hpre : isPrefixL
                "Template must include basic required fields: ".data
                ("Template must include basic required fields: " ++
                  String.intercalate ", " (["title", "url", "type"].filter
                    (fun f => !((x :: xs2).any (fun e => e.primEq (.str f)))))).data
                = true := by
              rw [String.data_append]
              exact isPrefixL_self_append _ _
            have hrfb : rfOkB (.obj fs) = true := by
              simp [rfOkB, MdVal.field, hr]
            unfold citedRule
            rw [hpre]
            simp [hname, hrfb]
      | str s2 =>
        rw [hr] at h
        have hmsg : msg =
            "Template metadata must specify requiredFields as an array" :=
          (Except.error.inj h).symm
        rw [hmsg, show citedRule
          "Template metadata must specify requiredFields as an array" =
          some .fieldsRule from by decide]
        simp [hname, rfOkB, MdVal.field, hr]
      | num n =>
        rw [hr] at h
        have hmsg : msg =
            "Template metadata must specify requiredFields as an array" :=
          (Except.error.inj h).symm
        rw [hmsg, show citedRule
          "Template metadata must specify requiredFields as an array" =
          some .fieldsRule from by decide]
        simp [hname, rfOkB, MdVal.field, hr]
      | bool b =>
        rw [hr] at h
        have hmsg : msg =
            "Template metadata must specify requiredFields as an array" :=
          (Except.error.inj h).symm
        rw [hmsg, show citedRule
          "Template metadata must specify requiredFields as an array" =
          some .fieldsRule from by decide]
        simp [hname, rfOkB, MdVal.field, hr]
      | null =>
        rw [hr] at h
        have hmsg : msg =
            "Template metadata must specify requiredFields as an array" :=
          (Except.error.inj h).symm
        rw [hmsg, show citedRule
          "Template metadata must specify requiredFields as an array" =
          some .fieldsRule from by decide]
        simp [hname, rfOkB, MdVal.field, hr]
      | undefined =>
        rw [hr] at h
        have hmsg : msg =
            "Template metadata must specify requiredFields as an array" :=
          (Except.error.inj h).symm
        rw [hmsg, show citedRule
          "Template metadata must specify requiredFields as an array" =
          some .fieldsRule from by decide]
        simp [hname, rfOkB, MdVal.field, hr]
  | num n =>
    rw [hn] at h
    rw [show ((!(JsValue.num n).truthy || !(JsValue.num n).isStr)) = true
      from by simp [JsValue.truthy, JsValue.isStr]] at h
    simp only [if_true] at h
    have hmsg : msg = "Template metadata must have a valid name" :=
      (Except.error.inj h).symm
    rw [hmsg, show citedRule "Template metadata must have a valid name" =
      some .nameRule from by decide]
    simp [nameOkB, MdVal.field, hn]
  | bool b =>
    rw [hn] at h
    rw [show ((!(JsValue.bool b).truthy || !(JsValue.bool b).isStr)) = true
      from by simp [JsValue.truthy, JsValue.isStr]] at h
    simp only [if_true] at h
    have hmsg : msg = "Template metadata must have a valid name" :=
      (Except.error.inj h).symm
    rw [hmsg, show citedRule "Template metadata must have a valid name" =
      some .nameRule from by decide]
    simp [nameOkB, MdVal.field, hn]
  | null =>
    rw [hn] at h
    rw [show ((!(JsValue.null).truthy || !(JsValue.null).isStr)) = true
      from by simp [JsValue.truthy, JsValue.isStr]] at h
    simp only [if_true] at h
    have hmsg : msg = "Template metadata must have a valid name" :=
      (Except.error.inj h).symm
    rw [hmsg, show citedRule "Template metadata must have a valid name" =
      some .nameRule from by decide]
    simp [nameOkB, MdVal.field, hn]
  | undefined =>
    rw [hn] at h
    rw [show ((!(JsValue.undefined).truthy || !(JsValue.undefined).isStr)) = true
      from by simp [JsValue.truthy, JsValue.isStr]] at h
    simp only [if_true] at h
    have hmsg : msg = "Template metadata must have a valid name" :=
      (Except.error.inj h).symm
    rw [hmsg, show citedRule "Template metadata must have a valid name" =
      some .nameRule from by decide]
    simp [nameOkB, MdVal.field, hn]
  | arr es =>
    rw [hn] at h
    rw [show ((!(JsValue.arr es).truthy || !(JsValue.arr es).isStr)) = true
      from by simp [JsValue.truthy, JsValue.isStr]] at h
    simp only [if_true] at h
    have hmsg : msg = "Template metadata must have a valid name" :=
      (Except.error.inj h).symm
    rw [hmsg, show citedRule "Template metadata must have a valid name" =
      some .nameRule from by decide]
    simp [nameOkB, MdVal.field, hn]

/-- C5: metadata validation succeeds iff the descriptor's `name` is a
non-empty string, its `requiredFields` is a non-empty array, and
`requiredFields` contains all of `title`, `url` and `type` (membership by
strict equality); and when it fails on an object descriptor, the thrown
message cites the first violated rule, in that order (both array-shape
messages citing the non-empty-sequence rule). -/
theorem c5_validateMetadata_characterization :
    (∀ md : MdVal, validateMetadataOn md = true ↔
      ((∃ s, md.field "name" = .str s ∧ s ≠ "") ∧
       (∃ xs, md.field "requiredFields" = .arr xs ∧ xs ≠ [] ∧
         ∀ f ∈ ["title", "url", "type"],
           xs.any (fun e => e.primEq (.str f)) = true))) ∧
    (∀ (fs : JsObj) (msg : String),
      validateMetadataBody ⟨.ok (.obj fs)⟩ = .error msg →
      citedRule msg = some
        (if !nameOkB (.obj fs) then .nameRule
         else if !rfOkB (.obj fs) then .fieldsRule
         else .supersetRule)) :=
  ⟨fun md => c5aux_iff md, fun fs msg h => c5aux_error fs msg h⟩

/-- Witness for C5: the wishlist descriptor validates, and the failure of
the empty descriptor cites the name rule first. -/
theorem c5_validateMetadata_characterization_witness :
    validateMetadataOn wishlistMetadataMd = true ∧
    citedRule "Template metadata must have a valid name" =
      some (if !nameOkB (.obj []) then .nameRule
        else if !rfOkB (.obj []) then .fieldsRule
        else .supersetRule) :=
  ⟨(c5_validateMetadata_characterization.1 wishlistMetadataMd).mpr
    ⟨⟨"Wishlist Template", rfl, by decide⟩,
     ⟨[.str "title", .str "url", .str "type"], rfl, by simp,
      by
        intro f hf
        simp only [List.mem_cons, List.not_mem_nil, or_false] at hf
        rcases hf with rfl | rfl | rfl <;> decide⟩⟩,
   c5_validateMetadata_characterization.2 []
     "Template metadata must have a valid name" rfl⟩
